import Mathlib

/-
Verification development for the index-rss-watcher repository.

The Python source under src/index-rss-watcher/src is embedded shallowly:
  - watcher.py  : FeedWatcher (classifier, feed processing, conditional fetch,
                  poll loop, csv ledger)
  - store.py    : EntryStore (sqlite seen table)
  - main.py     : entry point wiring
Pure fragments become Lean functions; the mutable watcher state (etag,
last-modified, seen ids, csv rows) is threaded explicitly; Python exceptions
become an error component in the step result.
-/

/-! ## Character-list substring matching

watcher.py line 10 compiles the regular expression `replac` with the
case-insensitive flag; `REPLACE_PATTERN.search(description)` is a
case-insensitive substring search.  We model text as lists of characters and
define a plain substring scan. -/

/-- needle-at-front test: `leadsWith hay nd` holds when `nd` is an initial
segment of `hay`. -/
def leadsWith : List Char → List Char → Bool
  | _, [] => true
  | [], _ :: _ => false
  | c :: cs, d :: ds => c == d && leadsWith cs ds

/-- substring scan: `containsSub hay nd` holds when `nd` occurs contiguously
anywhere inside `hay`. -/
def containsSub : List Char → List Char → Bool
  | [], nd => nd.isEmpty
  | c :: cs, nd => leadsWith (c :: cs) nd || containsSub cs nd

theorem leadsWith_iff (nd hay : List Char) :
    leadsWith hay nd = true ↔ ∃ rest, hay = nd ++ rest := by
  induction nd generalizing hay with
  | nil =>
    cases hay <;> simp [leadsWith]
  | cons d ds ih =>
    cases hay with
    | nil => simp [leadsWith]
    | cons c cs =>
      simp only [leadsWith, Bool.and_eq_true, beq_iff_eq, ih, List.cons_append,
        List.cons.injEq]
      constructor
      · rintro ⟨rfl, rest, rfl⟩
        exact ⟨rest, rfl, rfl⟩
      · rintro ⟨rest, rfl, rfl⟩
        exact ⟨rfl, rest, rfl⟩

theorem containsSub_iff (nd hay : List Char) :
    containsSub hay nd = true ↔ ∃ pre post, hay = pre ++ (nd ++ post) := by
  induction hay with
  | nil =>
    simp only [containsSub, List.isEmpty_iff]
    constructor
    · rintro rfl
      exact ⟨[], [], rfl⟩
    · rintro ⟨pre, post, h⟩
      rcases List.append_eq_nil.mp h.symm with ⟨rfl, h2⟩
      rcases List.append_eq_nil.mp h2 with ⟨rfl, rfl⟩
      rfl
  | cons c cs ih =>
    simp only [containsSub, Bool.or_eq_true, leadsWith_iff, ih]
    constructor
    · rintro (⟨rest, h⟩ | ⟨pre, post, h⟩)
      · exact ⟨[], rest, by simp [h]⟩
      · exact ⟨c :: pre, post, by simp [h]⟩
    · rintro ⟨pre, post, h⟩
      cases pre with
      | nil =>
        exact Or.inl ⟨post, by simpa using h⟩
      | cons p ps =>
        simp only [List.cons_append, List.cons.injEq] at h
        exact Or.inr ⟨ps, post, h.2⟩

/-! ## Data model

A feed entry as produced by feedparser.parse: every field is optional, since an
RSS item may omit any of the tags.  Accessing a missing field on a feedparser
entry raises AttributeError; the source sometimes guards this with getattr
defaults and sometimes does not. -/

structure FeedEntry where
  id : Option String
  title : Option String
  link : Option String
  description : Option String
  published : Option String
deriving DecidableEq

/-- a Python exception class observed by the embedded code paths. -/
inductive PyExc
  | attributeError
  | typeError
deriving DecidableEq

/-- one row of the csv ledger data/seen_entries.csv (watcher.py lines 33-49).
The timestamp column is wall-clock metadata and is not modelled; the csv module
quotes fields, so a written row reads back with the same field values. -/
structure CsvRow where
  entry_id : String
  title : String
  link : String
deriving DecidableEq

/-- the mutable attributes of a FeedWatcher instance (watcher.py lines 13-17):
the two cached validators, the in-memory seen set, and the contents of the csv
ledger file. -/
structure WatcherState where
  etag : Option String
  modified : Option String
  seen : List String
  rows : List CsvRow
deriving DecidableEq

/-- outcome of one call to Notifier.send (notifier.py lines 39-74): the
function returns True or False, or the call raises. -/
inductive SinkOutcome
  | success
  | failure
  | raised
deriving DecidableEq

/-- result of running a piece of the watcher: the exception that escaped (if
any), the state afterwards, and the texts passed to Notifier.send, in order. -/
structure StepResult where
  err : Option PyExc
  state : WatcherState
  sends : List String
deriving DecidableEq

/-! ## Change classifier

watcher.py lines 9-10 and 147-150: the alert decision tests the description
field against the single case-insensitive pattern `replac`.  Lowercasing the
text and scanning for the lowercase pattern realises the IGNORECASE flag (all
inputs of interest are ASCII). -/

/-- the character list of a string, lowercased. -/
def lowerChars (s : String) : List Char :=
  s.data.map Char.toLower

/-- case-insensitive substring test for the pattern of watcher.py line 10. -/
def containsReplac (s : String) : Bool :=
  containsSub (lowerChars s) "replac".data

/-- the classifier applied to an entry at watcher.py lines 148-150:
`description = getattr(entry, 'description', '')` then
`REPLACE_PATTERN.search(description)`. -/
def isAlertWorthy (e : FeedEntry) : Bool :=
  containsReplac (e.description.getD "")

/-- the pattern set the source configures: the single pattern of
watcher.py line 10. -/
def codePatterns : List String := ["replac"]

/-- Classifier as the specification section 4.3 words it, for comparison with
the source classifier isAlertWorthy: concatenate the populated text fields
(title and summary/description) into one case-insensitive corpus and test it
against the configured patterns with logical OR. -/
def isAlertWorthySpec (patterns : List String) (e : FeedEntry) : Bool :=
  let corpus := (e.title.getD "") ++ " " ++ (e.description.getD "")
  patterns.any (fun p => containsSub (lowerChars corpus) (lowerChars p))

/-! ## Seen set and csv ledger -/

/-- adding an id to the in-memory seen set (Python set.add,
watcher.py line 51). -/
def insertSeen (s : List String) (id : String) : List String :=
  if id ∈ s then s else s ++ [id]

/-- FeedWatcher._save_entry (watcher.py lines 33-51): append one row to the
csv ledger, then add the id to the in-memory set. -/
def saveEntry (st : WatcherState) (id title lnk : String) : WatcherState :=
  ⟨st.etag, st.modified, insertSeen st.seen id, st.rows ++ [⟨id, title, lnk⟩]⟩

/-- FeedWatcher._load_seen_entries (watcher.py lines 19-31): collect the
entry_id column of the csv ledger. -/
def loadSeenEntries (rows : List CsvRow) : List String :=
  rows.map CsvRow.entry_id

/-- FeedWatcher.__init__ (watcher.py lines 13-17): fresh validators (the fetch
cache is not persisted) and the seen set replayed from the csv ledger. -/
def watcherInit (rows : List CsvRow) : WatcherState :=
  ⟨none, none, loadSeenEntries rows, rows⟩

/-! ## Feed processing

FeedWatcher._process_feed (watcher.py lines 138-174).  Python evaluation
details embedded faithfully:
  - line 143 `getattr(entry, 'id', entry.link)` evaluates `entry.link` before
    the call, so a missing link raises AttributeError for every entry;
  - line 172 logs an f-string that reads `entry.title`, so a missing title
    raises on the non-matching branch;
  - line 174 `self._save_entry(entry_id, entry.title, entry.link)` reads
    `entry.title` raw, so a missing title raises after the sink was invoked;
  - lines 163-170 wrap Notifier.send in try/except, so every sink outcome
    leads to the same continuation. -/

/-- the alert message composed at watcher.py lines 157-161 (emoji elided). -/
def alertText (title published description lnk : String) : String :=
  "Index Change Alert\n\nTitle: " ++ title ++ "\n\nPublished: " ++ published ++
    "\n\nDescription:\n" ++ description ++ "\n\nLink: " ++ lnk

/-- the try/except around Notifier.send at watcher.py lines 163-170: success
is logged, failure is logged, a raised exception is caught and logged; in all
three cases execution continues identically. -/
def ignoreOutcome : SinkOutcome → StepResult → StepResult
  | SinkOutcome.success, r => r
  | SinkOutcome.failure, r => r
  | SinkOutcome.raised, r => r

/-- the body of the per-entry loop of _process_feed for one entry.  `f` gives
the behaviour of Notifier.send on each message text. -/
def processEntry (f : String → SinkOutcome) (st : WatcherState) (e : FeedEntry) :
    StepResult :=
  match e.link with
  | none => ⟨some PyExc.attributeError, st, []⟩
  | some l =>
    if e.id.getD l ∈ st.seen then ⟨none, st, []⟩
    else if isAlertWorthy e then
      let text := alertText (e.title.getD "No title") (e.published.getD "Unknown date")
        (e.description.getD "") (e.link.getD "")
      ignoreOutcome (f text)
        (match e.title with
          | none => ⟨some PyExc.attributeError, st, [text]⟩
          | some t => ⟨none, saveEntry st (e.id.getD l) t l, [text]⟩)
    else
      match e.title with
      | none => ⟨some PyExc.attributeError, st, []⟩
      | some t => ⟨none, saveEntry st (e.id.getD l) t l, []⟩

/-- _process_feed over the parsed entry list, in feed order; an exception
escaping one entry aborts the remaining entries of the document.
feedparser.parse is deterministic, so a fixed raw document is modelled by the
fixed entry list it parses to. -/
def processFeed (f : String → SinkOutcome) : List FeedEntry → WatcherState → StepResult
  | [], st => ⟨none, st, []⟩
  | e :: rest, st =>
    let r := processEntry f st e
    match r.err with
    | some ex => ⟨some ex, r.state, r.sends⟩
    | none =>
      let rr := processFeed f rest r.state
      ⟨rr.err, rr.state, r.sends ++ rr.sends⟩

/-! ## Conditional fetch

FeedWatcher._fetch (watcher.py lines 63-100), one request/response exchange.
The response is given abstractly as its status, the two cache-relevant
headers, and the body. -/

/-- an HTTP response as _fetch inspects it. -/
structure HttpResponse where
  status : Nat
  etagHdr : Option String
  lastModifiedHdr : Option String
  body : String
deriving DecidableEq

/-- what _fetch yields to the caller: a 304 returns the empty body (treated by
run_forever as no new content), a 200 returns the payload, any other status
raises (modelled as the error carrying the status). -/
inductive FetchOutcome
  | notModified
  | payload (data : String)
  | httpError (status : Nat)
deriving DecidableEq

/-- the fixed request headers of watcher.py lines 65-71. -/
def baseHeaders : List (String × String) :=
  [("User-Agent", "Mozilla/5.0 (Windows NT 10.0; Win64; x64) AppleWebKit/537.36"),
   ("Accept", "application/rss+xml, application/xml, text/xml"),
   ("Accept-Language", "en-US,en;q=0.9"),
   ("Accept-Encoding", "gzip, deflate, br"),
   ("Connection", "keep-alive")]

/-- Python truthiness of an optional string: None and the empty string are
falsy (the guards at watcher.py lines 72-73). -/
def pyTruthy : Option String → Bool
  | none => false
  | some s => !(s == "")

/-- the header list sent by _fetch (watcher.py lines 65-73): base headers,
plus If-None-Match when an etag is held, plus If-Modified-Since when a
last-modified value is held. -/
def requestHeaders (st : WatcherState) : List (String × String) :=
  baseHeaders ++
    (if pyTruthy st.etag then [("If-None-Match", st.etag.getD "")] else []) ++
    (if pyTruthy st.modified then [("If-Modified-Since", st.modified.getD "")] else [])

/-- the response dispatch of _fetch (watcher.py lines 82-96): 304 returns the
empty body and leaves the whole state alone; 200 updates each validator from
the response header when present (headers.get falls back to the old value) and
returns the body; anything else raises without touching the state. -/
def fetchStep (st : WatcherState) (resp : HttpResponse) : FetchOutcome × WatcherState :=
  if resp.status = 304 then (FetchOutcome.notModified, st)
  else if resp.status = 200 then
    (FetchOutcome.payload resp.body,
      ⟨(match resp.etagHdr with | some v => some v | none => st.etag),
       (match resp.lastModifiedHdr with | some v => some v | none => st.modified),
       st.seen, st.rows⟩)
  else (FetchOutcome.httpError resp.status, st)

/-! ## Poll loop bookkeeping

FeedWatcher.run_forever (watcher.py lines 102-136).  One iteration is driven
by what happened inside its try block; the loop state is the
consecutive-error counter.  The sleep durations an iteration performs are
recorded in order. -/

/-- config.py line 13, default value. -/
def POLL_INTERVAL_SEC : Nat := 30

/-- watcher.py line 111: max_errors = 5. -/
def maxErrors : Nat := 5

/-- how one iteration of the while loop went: the fetch raised, the fetch
returned the empty body (304), the feed was processed without exception, or
_process_feed raised. -/
inductive CycleEvent
  | fetchError
  | notModified
  | processed
  | processError
deriving DecidableEq

/-- one iteration of run_forever (watcher.py lines 113-136): an exception
increments the counter and, once it reaches max_errors, sleeps the extended
cooldown interval * 3 and resets the counter; a processed cycle resets the
counter; a 304 leaves it alone; every iteration ends with the base-interval
sleep of line 136.  Returns the new counter and the sleeps performed. -/
def loopStep (interval counter : Nat) (ev : CycleEvent) : Nat × List Nat :=
  match ev with
  | CycleEvent.notModified => (counter, [interval])
  | CycleEvent.processed => (0, [interval])
  | CycleEvent.fetchError =>
    if maxErrors ≤ counter + 1 then (0, [interval * 3, interval])
    else (counter + 1, [interval])
  | CycleEvent.processError =>
    if maxErrors ≤ counter + 1 then (0, [interval * 3, interval])
    else (counter + 1, [interval])

/-- run_forever over a finite trace of cycle events: final counter and the
sleep list of every iteration. -/
def loopRun (interval : Nat) : Nat → List CycleEvent → Nat × List (List Nat)
  | counter, [] => (counter, [])
  | counter, ev :: rest =>
    let p := loopStep interval counter ev
    let q := loopRun interval p.1 rest
    (q.1, p.2 :: q.2)

/-! ## EntryStore

store.py lines 4-28: a sqlite table `seen (id TEXT PRIMARY KEY)` in a database
file.  The file system is an association list from database path to table
contents; the table is the list of ids in insertion order. -/

/-- contents of the seen table of one database file. -/
abbrev SeenTable := List String

/-- the database files on disk, path to table contents.  A path absent from
the list is a database in which the seen table was never created. -/
abbrev FsMap := List (String × SeenTable)

/-- read the table of a database file, if created. -/
def fsGet : FsMap → String → Option SeenTable
  | [], _ => none
  | (q, u) :: rest, p => if q = p then some u else fsGet rest p

/-- write the table of a database file. -/
def fsSet : FsMap → String → SeenTable → FsMap
  | [], p, t => [(p, t)]
  | (q, u) :: rest, p, t => if q = p then (p, t) :: rest else (q, u) :: fsSet rest p t

/-- INSERT OR IGNORE into a primary-key column (store.py line 28): a present
id is ignored, a new id is appended. -/
def tableInsert (t : SeenTable) (id : String) : SeenTable :=
  if id ∈ t then t else t ++ [id]

/-- EntryStore.__init__ (store.py lines 5-10): CREATE TABLE IF NOT EXISTS —
create the table empty when the file has none, otherwise leave the file as it
is. -/
def entryStoreInit (fs : FsMap) (p : String) : FsMap :=
  if (fsGet fs p).isSome then fs else fsSet fs p []

/-- EntryStore.is_seen (store.py lines 21-24): SELECT 1 FROM seen WHERE id=?
against the table of the file (an uncreated table holds no row). -/
def isSeenDb (fs : FsMap) (p id : String) : Bool :=
  decide (id ∈ (fsGet fs p).getD [])

/-- EntryStore.mark_seen (store.py lines 26-28). -/
def markSeenDb (fs : FsMap) (p id : String) : FsMap :=
  fsSet fs p (tableInsert ((fsGet fs p).getD []) id)

/-! ## main wiring

main.py lines 36-49: the store is initialized, then the watcher is constructed
as `FeedWatcher(store)`.  FeedWatcher.__init__ (watcher.py line 13) declares no
parameter besides self; by the Python calling convention a positional-argument
count different from the parameter count raises TypeError, which main catches
and turns into exit code 1 before the poll loop task is ever created. -/

/-- parameters of FeedWatcher.__init__ besides self (watcher.py line 13). -/
def feedWatcherInitParamCount : Nat := 0

/-- positional arguments of the call `FeedWatcher(store)` (main.py line 45). -/
def mainWatcherArgCount : Nat := 1

/-- Python call semantics for the constructor: matching argument count binds,
anything else raises TypeError. -/
def callWatcherCtor (args : Nat) : Except PyExc Unit :=
  if args = feedWatcherInitParamCount then Except.ok () else Except.error PyExc.typeError

/-- what a run of main() comes to: the exit code, whether run_forever was ever
started, and whether the watcher consulted the EntryStore.  The error branch
of main.py lines 44-49 returns 1 before create_task; in the (unreachable)
success branch the loop starts, and even then the watcher never touches the
EntryStore, whose only reference is the discarded constructor argument — the
watcher keeps its own csv ledger. -/
def mainRun : Nat × Bool × Bool :=
  match callWatcherCtor mainWatcherArgCount with
  | Except.error _ => (1, false, false)
  | Except.ok _ => (0, true, false)

/-- watcher.py line 16. -/
def csvPath : String := "data/seen_entries.csv"

/-! ## Concrete fixtures for witnesses and counterexamples -/

/-- a sink that reports success on every message. -/
def sinkOk : String → SinkOutcome := fun _ => SinkOutcome.success

/-- a sink whose transport raises on every message. -/
def sinkRaise : String → SinkOutcome := fun _ => SinkOutcome.raised

/-- a fresh watcher: no validators, empty ledger. -/
def state0 : WatcherState := ⟨none, none, [], []⟩

/-- fully populated matching entry. -/
def entryFull : FeedEntry :=
  ⟨some "news-1", some "S and P 500 Index Changes", some "https://example.com/news/1",
    some "XYZ Corp will replace ABC Inc in the index", some "Mon, 25 Dec 2024 10:00:00 GMT"⟩

/-- fully populated non-matching entry. -/
def entryQuiet : FeedEntry :=
  ⟨some "news-2", some "Quarterly earnings report", some "https://example.com/news/2",
    some "Regular earnings update, no index changes", none⟩

/-- a two-entry document all of whose entries carry title and link. -/
def demoDoc : List FeedEntry := [entryFull, entryQuiet]

/-- matching entry that lacks a title (counterexample input for C1). -/
def entryC1x : FeedEntry :=
  ⟨some "e1", none, some "https://example.com/c1", some "P will replace Q", none⟩

/-- the literal classifier case of the specification (C2). -/
def entryLiteralC2 : FeedEntry :=
  ⟨some "lit2", some "S&P 500 Index Changes", some "https://example.com/t2",
    some "XYZ Corp will replace ABC Inc in the S&P 500", none⟩

/-- entry whose title alone carries the trigger (counterexample input for C2). -/
def entryTitleOnlyC2 : FeedEntry :=
  ⟨some "t2", some "Replacement set for index", some "https://example.com/t3",
    some "Routine index notice", none⟩

/-- alert-worthy entry lacking a title (counterexample input for C4). -/
def entryC4x : FeedEntry :=
  ⟨some "a1", none, some "https://example.com/c4", some "B will replace C", none⟩

/-- alert-worthy, fully populated entry (witness input for C4). -/
def entryC4w : FeedEntry :=
  ⟨some "w4", some "Index Update", some "https://example.com/w4",
    some "D will replace E effective Friday", none⟩

/-- a 304 response. -/
def resp304 : HttpResponse := ⟨304, none, none, ""⟩

/-- a watcher holding both validators and a nonempty ledger (witness input for
C6). -/
def stateC6 : WatcherState := ⟨some "abc", some "Mon, 25 Dec 2024 10:00:00 GMT", ["x"], []⟩

/-- non-matching entry lacking a title (counterexample input for C9). -/
def entryC9x : FeedEntry :=
  ⟨some "n1", none, some "https://example.com/c9", some "routine earnings update", none⟩

/-- non-matching, fully populated entry (witness input for C9). -/
def entryC9w : FeedEntry :=
  ⟨some "w9", some "Market note", some "https://example.com/w9",
    some "nothing of interest here", none⟩

/-- alert-worthy entry lacking a title, first in the C10 document. -/
def entryC10a : FeedEntry :=
  ⟨some "b1", none, some "https://example.com/cA", some "F will replace G", none⟩

/-- well-formed entry standing after the faulty one in the C10 document. -/
def entryC10b : FeedEntry :=
  ⟨some "b2", some "Later entry", some "https://example.com/cB", some "nothing", none⟩

/-! ## Helper lemmas -/

theorem ignoreOutcome_eq (o : SinkOutcome) (r : StepResult) : ignoreOutcome o r = r := by
  cases o <;> rfl

theorem mem_insertSeen_self (s : List String) (id : String) : id ∈ insertSeen s id := by
  unfold insertSeen
  split
  · assumption
  · simp

theorem mem_insertSeen_of_mem (s : List String) (id x : String) (hx : x ∈ s) :
    x ∈ insertSeen s id := by
  unfold insertSeen
  split
  · exact hx
  · exact List.mem_append_left _ hx

theorem processEntry_skip (f : String → SinkOutcome) (st : WatcherState) (e : FeedEntry)
    (l : String) (hl : e.link = some l) (hs : e.id.getD l ∈ st.seen) :
    processEntry f st e = ⟨none, st, []⟩ := by
  unfold processEntry
  rw [hl]
  simp [hs]

theorem processEntry_alert (f : String → SinkOutcome) (st : WatcherState) (e : FeedEntry)
    (l t : String) (hl : e.link = some l) (ht : e.title = some t)
    (hnew : e.id.getD l ∉ st.seen) (hm : isAlertWorthy e = true) :
    processEntry f st e =
      ⟨none, saveEntry st (e.id.getD l) t l,
        [alertText t (e.published.getD "Unknown date") (e.description.getD "") l]⟩ := by
  unfold processEntry
  rw [hl]
  simp [hnew, hm, ht, ignoreOutcome_eq]

theorem processEntry_noalert (f : String → SinkOutcome) (st : WatcherState) (e : FeedEntry)
    (l t : String) (hl : e.link = some l) (ht : e.title = some t)
    (hnew : e.id.getD l ∉ st.seen) (hm : isAlertWorthy e = false) :
    processEntry f st e = ⟨none, saveEntry st (e.id.getD l) t l, []⟩ := by
  unfold processEntry
  rw [hl]
  simp [hnew, hm, ht]

theorem processEntry_wf (f : String → SinkOutcome) (st : WatcherState) (e : FeedEntry)
    (l t : String) (hl : e.link = some l) (ht : e.title = some t) :
    (processEntry f st e).err = none ∧
    e.id.getD l ∈ (processEntry f st e).state.seen ∧
    ∀ x ∈ st.seen, x ∈ (processEntry f st e).state.seen := by
  by_cases hs : e.id.getD l ∈ st.seen
  · rw [processEntry_skip f st e l hl hs]
    exact ⟨rfl, hs, fun x hx => hx⟩
  · cases hm : isAlertWorthy e
    · rw [processEntry_noalert f st e l t hl ht hs hm]
      exact ⟨rfl, mem_insertSeen_self _ _, fun x hx => mem_insertSeen_of_mem _ _ _ hx⟩
    · rw [processEntry_alert f st e l t hl ht hs hm]
      exact ⟨rfl, mem_insertSeen_self _ _, fun x hx => mem_insertSeen_of_mem _ _ _ hx⟩

theorem processFeed_nil (f : String → SinkOutcome) (st : WatcherState) :
    processFeed f [] st = ⟨none, st, []⟩ := rfl

theorem processFeed_cons (f : String → SinkOutcome) (e : FeedEntry) (rest : List FeedEntry)
    (st : WatcherState) :
    processFeed f (e :: rest) st =
      match (processEntry f st e).err with
      | some ex => ⟨some ex, (processEntry f st e).state, (processEntry f st e).sends⟩
      | none =>
        ⟨(processFeed f rest (processEntry f st e).state).err,
         (processFeed f rest (processEntry f st e).state).state,
         (processEntry f st e).sends ++ (processFeed f rest (processEntry f st e).state).sends⟩ :=
  rfl

theorem processFeed_cons_ok (f : String → SinkOutcome) (e : FeedEntry) (rest : List FeedEntry)
    (st : WatcherState) (h : (processEntry f st e).err = none) :
    processFeed f (e :: rest) st =
      ⟨(processFeed f rest (processEntry f st e).state).err,
       (processFeed f rest (processEntry f st e).state).state,
       (processEntry f st e).sends ++ (processFeed f rest (processEntry f st e).state).sends⟩ := by
  rw [processFeed_cons, h]

theorem processFeed_cons_err (f : String → SinkOutcome) (e : FeedEntry) (rest : List FeedEntry)
    (st : WatcherState) (ex : PyExc) (h : (processEntry f st e).err = some ex) :
    processFeed f (e :: rest) st =
      ⟨some ex, (processEntry f st e).state, (processEntry f st e).sends⟩ := by
  rw [processFeed_cons, h]

theorem processFeed_wf (f : String → SinkOutcome) (doc : List FeedEntry) (st : WatcherState)
    (h : ∀ e ∈ doc, e.link.isSome ∧ e.title.isSome) :
    (processFeed f doc st).err = none ∧
    (∀ e ∈ doc, ∀ l, e.link = some l → e.id.getD l ∈ (processFeed f doc st).state.seen) ∧
    (∀ x ∈ st.seen, x ∈ (processFeed f doc st).state.seen) := by
  induction doc generalizing st with
  | nil =>
    exact ⟨rfl, fun e he => absurd he (List.not_mem_nil e), fun x hx => hx⟩
  | cons e rest ih =>
    obtain ⟨hl0, ht0⟩ := h e (List.mem_cons_self e rest)
    obtain ⟨l, hl⟩ := Option.isSome_iff_exists.mp hl0
    obtain ⟨t, ht⟩ := Option.isSome_iff_exists.mp ht0
    obtain ⟨h1, h2, h3⟩ := processEntry_wf f st e l t hl ht
    have hrest := ih (processEntry f st e).state
      (fun e2 he2 => h e2 (List.mem_cons_of_mem _ he2))
    rw [processFeed_cons_ok f e rest st h1]
    refine ⟨hrest.1, ?_, ?_⟩
    · intro e2 he2 l2 hl2
      rcases List.mem_cons.mp he2 with rfl | hmem
      · rw [hl] at hl2
        injection hl2 with hl2
        subst hl2
        exact hrest.2.2 _ h2
      · exact hrest.2.1 e2 hmem l2 hl2
    · intro x hx
      exact hrest.2.2 x (h3 x hx)

theorem processFeed_all_seen (f : String → SinkOutcome) (doc : List FeedEntry)
    (st : WatcherState)
    (h : ∀ e ∈ doc, ∃ l, e.link = some l ∧ e.id.getD l ∈ st.seen) :
    processFeed f doc st = ⟨none, st, []⟩ := by
  induction doc with
  | nil => rfl
  | cons e rest ih =>
    obtain ⟨l, hl, hs⟩ := h e (List.mem_cons_self e rest)
    have hskip := processEntry_skip f st e l hl hs
    have hrest := ih (fun e2 he2 => h e2 (List.mem_cons_of_mem _ he2))
    have hok : (processEntry f st e).err = none := by rw [hskip]
    rw [processFeed_cons_ok f e rest st hok, hskip, hrest]
    rfl

theorem processFeed_single (f : String → SinkOutcome) (st : WatcherState) (e : FeedEntry)
    (r : StepResult) (hr : processEntry f st e = r) (hok : r.err = none) :
    processFeed f [e] st = ⟨none, r.state, r.sends⟩ := by
  have h : (processEntry f st e).err = none := by rw [hr, hok]
  rw [processFeed_cons_ok f e [] st h, hr, processFeed_nil]
  simp [hok]

theorem fsGet_fsSet (fs : FsMap) (p : String) (t : SeenTable) :
    fsGet (fsSet fs p t) p = some t := by
  induction fs with
  | nil => simp [fsSet, fsGet]
  | cons kv rest ih =>
    obtain ⟨q, u⟩ := kv
    by_cases hq : q = p
    · subst hq
      simp [fsSet, fsGet]
    · simp [fsSet, fsGet, hq, ih]

theorem fsSet_fsSet (fs : FsMap) (p : String) (t u : SeenTable) :
    fsSet (fsSet fs p t) p u = fsSet fs p u := by
  induction fs with
  | nil => simp [fsSet]
  | cons kv rest ih =>
    obtain ⟨q, v⟩ := kv
    by_cases hq : q = p
    · subst hq
      simp [fsSet]
    · simp [fsSet, hq, ih]

theorem mem_tableInsert_self (t : SeenTable) (id : String) : id ∈ tableInsert t id := by
  unfold tableInsert
  split
  · assumption
  · simp

theorem tableInsert_of_mem (t : SeenTable) (id : String) (h : id ∈ t) :
    tableInsert t id = t := by
  unfold tableInsert
  rw [if_pos h]

theorem tableInsert_idem (t : SeenTable) (id : String) :
    tableInsert (tableInsert t id) id = tableInsert t id :=
  tableInsert_of_mem _ _ (mem_tableInsert_self t id)

/-! ## Claims -/

/-- C1, as stated, fails on the code: an entry whose description matches the
trigger but which lacks a title field is notified in the first pass, after
which the save step of watcher.py line 174 raises reading entry.title, so the
id is never recorded; processing the same document a second time notifies the
very same entry again — a second sink invocation for an entry present in both
passes. -/
theorem duplicate_alert_missing_title_cex :
    (processFeed sinkOk [entryC1x] state0).sends.length = 1 ∧
    (processFeed sinkOk [entryC1x]
        (processFeed sinkOk [entryC1x] state0).state).sends.length = 1 := by
  decide

/-- C1 (amended): for a fixed feed document all of whose entries carry title
and link fields, processing the document twice in succession triggers no sink
invocation in the second pass: every entry id is in the seen set after the
first pass and processing skips it before classification, so each distinct
entry is reported at most once. -/
theorem no_duplicate_alerts (f : String → SinkOutcome) (doc : List FeedEntry)
    (st : WatcherState) (h : ∀ e ∈ doc, e.link.isSome ∧ e.title.isSome) :
    (processFeed f doc (processFeed f doc st).state).sends = [] := by
  obtain ⟨h1, h2, h3⟩ := processFeed_wf f doc st h
  have hall : ∀ e ∈ doc, ∃ l, e.link = some l ∧
      e.id.getD l ∈ (processFeed f doc st).state.seen := by
    intro e he
    obtain ⟨hl0, ht0⟩ := h e he
    obtain ⟨l, hl⟩ := Option.isSome_iff_exists.mp hl0
    exact ⟨l, hl, h2 e he l hl⟩
  rw [processFeed_all_seen f doc _ hall]

/-- witness for C1 at a concrete two-entry document. -/
theorem no_duplicate_alerts_witness :
    (processFeed sinkOk demoDoc (processFeed sinkOk demoDoc state0).state).sends = [] :=
  no_duplicate_alerts sinkOk demoDoc state0 (by decide)

/-- C2, as stated, fails on the code: the title is not part of the matched
corpus.  An entry whose title contains the trigger while its description does
not is alert-worthy under the corpus semantics the claim describes (with the
pattern set the source configures) but is not alert-worthy to the code. -/
theorem classifier_title_not_consulted_cex :
    isAlertWorthySpec codePatterns entryTitleOnlyC2 = true ∧
    isAlertWorthy entryTitleOnlyC2 = false := by
  decide

/-- C2 (amended): the alert decision reads only the description field — the
title is never consulted — and matches it as a case-insensitive substring
search for the single configured pattern; the literal case of the claim
(title about index changes, description containing the word replace) is
alert-worthy through its description. -/
theorem classifier_description_only :
    (∀ i t1 t2 l d p, isAlertWorthy (FeedEntry.mk i t1 l d p) =
      isAlertWorthy (FeedEntry.mk i t2 l d p)) ∧
    (∀ e : FeedEntry, isAlertWorthy e = true ↔
      ∃ pre post, lowerChars (e.description.getD "") = pre ++ ("replac".data ++ post)) ∧
    isAlertWorthy entryLiteralC2 = true ∧
    isAlertWorthy entryQuiet = false := by
  refine ⟨?_, ?_, ?_, ?_⟩
  · intro i t1 t2 l d p
    rfl
  · intro e
    exact containsSub_iff "replac".data (lowerChars (e.description.getD ""))
  · decide
  · decide

/-- C3: main.py line 45 calls FeedWatcher(store) with one positional argument
while FeedWatcher.__init__ (watcher.py line 13) takes none, so construction
raises TypeError, main returns exit code 1 without starting the poll loop, and
the sqlite EntryStore is never consulted by the watcher, whose own ledger is
the csv file data/seen_entries.csv. -/
theorem watcher_init_arity_mismatch :
    feedWatcherInitParamCount ≠ mainWatcherArgCount ∧
    callWatcherCtor mainWatcherArgCount = Except.error PyExc.typeError ∧
    mainRun = (1, false, false) ∧
    csvPath = "data/seen_entries.csv" := by
  exact ⟨by decide, rfl, rfl, rfl⟩

/-- C4, as stated, fails on the code: for an alert-worthy entry lacking a
title field the sink is invoked, then the save step raises before the id is
recorded, so the next cycle re-attempts it and the sink fires again. -/
theorem alert_entry_not_recorded_cex :
    (processFeed sinkOk [entryC4x] state0).sends.length = 1 ∧
    "a1" ∉ (processFeed sinkOk [entryC4x] state0).state.seen ∧
    (processFeed sinkOk [entryC4x]
        (processFeed sinkOk [entryC4x] state0).state).sends.length = 1 := by
  decide

/-- C4 (amended): for every new alert-worthy entry carrying title and link
fields, the sink is invoked exactly once in the cycle and not retried, the
processing result is identical whatever the sink does — success, failure, or a
raised exception — the entry is afterwards recorded in the seen ledger, and a
later cycle over the same entry performs no sink invocation. -/
theorem mark_seen_regardless_of_sink (f g : String → SinkOutcome) (st : WatcherState)
    (e : FeedEntry) (l t : String) (hl : e.link = some l) (ht : e.title = some t)
    (hnew : e.id.getD l ∉ st.seen) (hm : isAlertWorthy e = true) :
    (processFeed f [e] st).sends.length = 1 ∧
    processFeed g [e] st = processFeed f [e] st ∧
    e.id.getD l ∈ (processFeed f [e] st).state.seen ∧
    (processFeed f [e] (processFeed f [e] st).state).sends = [] := by
  have hf := processEntry_alert f st e l t hl ht hnew hm
  have hg := processEntry_alert g st e l t hl ht hnew hm
  have hsf := processFeed_single f st e _ hf rfl
  have hsg := processFeed_single g st e _ hg rfl
  refine ⟨?_, ?_, ?_, ?_⟩
  · rw [hsf]
    rfl
  · rw [hsf, hsg]
  · rw [hsf]
    exact mem_insertSeen_self st.seen (e.id.getD l)
  · rw [hsf]
    have hskip := processEntry_skip f (saveEntry st (e.id.getD l) t l) e l hl
      (mem_insertSeen_self st.seen (e.id.getD l))
    rw [processFeed_single f _ e _ hskip rfl]

/-- witness for C4 at a concrete alert-worthy entry, against a succeeding and
a raising sink. -/
theorem mark_seen_regardless_of_sink_witness :
    (processFeed sinkOk [entryC4w] state0).sends.length = 1 ∧
    processFeed sinkRaise [entryC4w] state0 = processFeed sinkOk [entryC4w] state0 ∧
    (entryC4w.id.getD "https://example.com/w4") ∈
      (processFeed sinkOk [entryC4w] state0).state.seen ∧
    (processFeed sinkOk [entryC4w]
        (processFeed sinkOk [entryC4w] state0).state).sends = [] :=
  mark_seen_regardless_of_sink sinkOk sinkRaise state0 entryC4w
    "https://example.com/w4" "Index Update" rfl rfl (by decide) (by decide)

/-- C5: marking an id twice leaves it seen, the second INSERT OR IGNORE is a
total no-op on the stored table, and no error is raised (the operation is a
total function of the state). -/
theorem idempotent_marking (fs : FsMap) (p id : String) :
    markSeenDb (markSeenDb fs p id) p id = markSeenDb fs p id ∧
    isSeenDb (markSeenDb (markSeenDb fs p id) p id) p id = true := by
  have key : markSeenDb (markSeenDb fs p id) p id = markSeenDb fs p id := by
    unfold markSeenDb
    rw [fsGet_fsSet]
    simp only [Option.getD_some]
    rw [tableInsert_idem, fsSet_fsSet]
  refine ⟨key, ?_⟩
  rw [key]
  unfold isSeenDb markSeenDb
  rw [fsGet_fsSet]
  simp [mem_tableInsert_self]

/-- C6: a held (truthy) etag is sent as the If-None-Match request header, and
a 304 reply yields the not-modified outcome while leaving the whole watcher
state — both cached validators and the seen ledger — unchanged. -/
theorem conditional_fetch_304 (st : WatcherState) (resp : HttpResponse) (e : String)
    (he : st.etag = some e) (hne : e ≠ "") (h304 : resp.status = 304) :
    ("If-None-Match", e) ∈ requestHeaders st ∧
    fetchStep st resp = (FetchOutcome.notModified, st) := by
  constructor
  · unfold requestHeaders
    rw [he]
    have ht : pyTruthy (some e) = true := by
      simp [pyTruthy, hne]
    rw [ht]
    simp
  · unfold fetchStep
    rw [h304]
    simp

/-- witness for C6 at a concrete cached state and a 304 response. -/
theorem conditional_fetch_304_witness :
    ("If-None-Match", "abc") ∈ requestHeaders stateC6 ∧
    fetchStep stateC6 resp304 = (FetchOutcome.notModified, stateC6) :=
  conditional_fetch_304 stateC6 resp304 "abc" rfl (by decide) rfl

/-- C7: an id marked seen survives a restart — re-running the EntryStore
constructor (CREATE TABLE IF NOT EXISTS) over the same database file reports
the id as seen, and an id appended to the csv ledger is in the seen set of a
freshly constructed FeedWatcher reading the same file. -/
theorem restart_durability (fs : FsMap) (p id : String) (st : WatcherState)
    (t lnk : String) :
    isSeenDb (entryStoreInit (markSeenDb fs p id) p) p id = true ∧
    id ∈ (watcherInit (saveEntry st id t lnk).rows).seen := by
  constructor
  · unfold entryStoreInit markSeenDb
    rw [fsGet_fsSet]
    simp only [Option.isSome_some, if_true]
    unfold isSeenDb
    rw [fsGet_fsSet]
    simp [mem_tableInsert_self]
  · simp [watcherInit, saveEntry, loadSeenEntries]

/-- C8: with five consecutive fetch errors the loop increments the counter
each time and on the fifth — the configured max_errors = 5 — first sleeps the
extended cooldown of three base intervals (distinct from the base interval)
before the usual inter-cycle sleep, and resets the counter to 0. -/
theorem cooldown_escalation (i : Nat) (hi : 0 < i) :
    loopRun i 0 [CycleEvent.fetchError, CycleEvent.fetchError, CycleEvent.fetchError,
      CycleEvent.fetchError, CycleEvent.fetchError] =
      (0, [[i], [i], [i], [i], [i * 3, i]]) ∧
    (loopStep i 4 CycleEvent.fetchError).2 = [i * 3, i] ∧
    i * 3 ≠ i ∧
    (loopStep i 4 CycleEvent.fetchError).1 = 0 := by
  refine ⟨?_, ?_, ?_, ?_⟩
  · norm_num [loopRun, loopStep, maxErrors]
  · norm_num [loopStep, maxErrors]
  · omega
  · norm_num [loopStep, maxErrors]

/-- witness for C8 at the configured default poll interval. -/
theorem cooldown_escalation_witness :
    loopRun POLL_INTERVAL_SEC 0 [CycleEvent.fetchError, CycleEvent.fetchError,
      CycleEvent.fetchError, CycleEvent.fetchError, CycleEvent.fetchError] =
      (0, [[POLL_INTERVAL_SEC], [POLL_INTERVAL_SEC], [POLL_INTERVAL_SEC],
        [POLL_INTERVAL_SEC], [POLL_INTERVAL_SEC * 3, POLL_INTERVAL_SEC]]) ∧
    (loopStep POLL_INTERVAL_SEC 4 CycleEvent.fetchError).2 =
      [POLL_INTERVAL_SEC * 3, POLL_INTERVAL_SEC] ∧
    POLL_INTERVAL_SEC * 3 ≠ POLL_INTERVAL_SEC ∧
    (loopStep POLL_INTERVAL_SEC 4 CycleEvent.fetchError).1 = 0 :=
  cooldown_escalation POLL_INTERVAL_SEC (by decide)

/-- C9, as stated, fails on the code: a new non-matching entry lacking a title
field makes the logging f-string of watcher.py line 172 raise reading
entry.title, the cycle aborts, and the entry is never recorded seen. -/
theorem skip_entry_not_recorded_cex :
    (processFeed sinkOk [entryC9x] state0).err = some PyExc.attributeError ∧
    "n1" ∉ (processFeed sinkOk [entryC9x] state0).state.seen := by
  decide

/-- C9 (amended): every new entry carrying title and link fields is recorded
seen whether or not it is alert-worthy, so a later cycle skips it outright and
never re-classifies it. -/
theorem record_every_entry (f : String → SinkOutcome) (st : WatcherState)
    (e : FeedEntry) (l t : String) (hl : e.link = some l) (ht : e.title = some t)
    (hnew : e.id.getD l ∉ st.seen) :
    (processFeed f [e] st).err = none ∧
    e.id.getD l ∈ (processFeed f [e] st).state.seen ∧
    processFeed f [e] (processFeed f [e] st).state =
      ⟨none, (processFeed f [e] st).state, []⟩ := by
  have hstate : processFeed f [e] st =
      ⟨none, saveEntry st (e.id.getD l) t l,
        (processFeed f [e] st).sends⟩ := by
    cases hm : isAlertWorthy e
    · rw [processFeed_single f st e _ (processEntry_noalert f st e l t hl ht hnew hm) rfl]
    · rw [processFeed_single f st e _ (processEntry_alert f st e l t hl ht hnew hm) rfl]
  refine ⟨?_, ?_, ?_⟩
  · rw [hstate]
  · rw [hstate]
    exact mem_insertSeen_self st.seen (e.id.getD l)
  · rw [hstate]
    have hskip := processEntry_skip f (saveEntry st (e.id.getD l) t l) e l hl
      (mem_insertSeen_self st.seen (e.id.getD l))
    exact processFeed_single f _ e _ hskip rfl

/-- witness for C9 at a concrete non-matching entry. -/
theorem record_every_entry_witness :
    (processFeed sinkOk [entryC9w] state0).err = none ∧
    entryC9w.id.getD "https://example.com/w9" ∈
      (processFeed sinkOk [entryC9w] state0).state.seen ∧
    processFeed sinkOk [entryC9w] (processFeed sinkOk [entryC9w] state0).state =
      ⟨none, (processFeed sinkOk [entryC9w] state0).state, []⟩ :=
  record_every_entry sinkOk state0 entryC9w "https://example.com/w9" "Market note"
    rfl rfl (by decide)

/-- C10: an alert-worthy entry lacking a title makes the save step of
watcher.py line 174 raise AttributeError after the sink was invoked; the id is
not recorded, the remaining entries of the document are not processed in that
cycle, and the escaped exception is counted by run_forever toward the
consecutive-error counter. -/
theorem save_entry_missing_title_runtime_error :
    (processFeed sinkOk [entryC10a, entryC10b] state0).err = some PyExc.attributeError ∧
    (processFeed sinkOk [entryC10a, entryC10b] state0).sends.length = 1 ∧
    "b1" ∉ (processFeed sinkOk [entryC10a, entryC10b] state0).state.seen ∧
    "b2" ∉ (processFeed sinkOk [entryC10a, entryC10b] state0).state.seen ∧
    loopStep POLL_INTERVAL_SEC 0 CycleEvent.processError = (1, [POLL_INTERVAL_SEC]) := by
  decide
